import Mathlib

/-!
Shallow embedding of the OBJ mesh loader (src/include/obj_loader.hpp).
Only the header is present in the repository snapshot; the method bodies
(obj_loader.impl.hpp / obj_loader.cpp) are not, so operations are modelled
from the specification, as noted in each doc comment. Doubles are modelled
as exact rationals.
-/

set_option autoImplicit false

namespace ObjLoader

/-- Error kinds of the structured error type described in the spec
(section 6: IOError, InvalidContext, OutOfRange, InvalidArgument, OutOfMemory). -/
inductive GbErrorKind where
  | IOError
  | InvalidContext
  | OutOfRange
  | InvalidArgument
  | OutOfMemory

deriving instance DecidableEq, Repr for GbErrorKind

/-- The Face record of OBJ_Mesh (obj_loader.hpp lines 29-34): three
vertex-index triples into geometry, normals and texcoords, plus a
smoothing group id (-1 means undefined). All fields are C ints. -/
structure Face where
  vert1 : Int
  vert2 : Int
  vert3 : Int
  normal1 : Int
  normal2 : Int
  normal3 : Int
  texture1 : Int
  texture2 : Int
  texture3 : Int
  smoothing_group : Int

deriving instance DecidableEq, Repr, Inhabited for Face

/-- The OBJ_Mesh data members (obj_loader.hpp lines 36-40): flat double
lists for geometry, normals and texture coordinates, a face list and a
name. Doubles are modelled as rationals. -/
structure OBJ_Mesh where
  m_name : String
  m_geometry : List Rat
  m_normals : List Rat
  m_texcoords : List Rat
  m_faces : List Face

deriving instance DecidableEq, Repr for OBJ_Mesh

namespace OBJ_Mesh

/-- Modelled from the spec: the OBJ_Mesh constructor body is missing;
a Mesh is created with a name and empty data sets (spec section 3,
Lifecycle). -/
def mkMesh (name : String) : OBJ_Mesh :=
  ⟨name, [], [], [], []⟩

/-- Modelled from the spec: SetName body is missing; replaces the display
name (spec 4.1). -/
def SetName (m : OBJ_Mesh) (name : String) : OBJ_Mesh :=
  ⟨name, m.m_geometry, m.m_normals, m.m_texcoords, m.m_faces⟩

/-- Modelled from the spec: GetName body is missing; reads the display
name (spec 4.1). -/
def GetName (m : OBJ_Mesh) : String :=
  m.m_name

/-- Modelled from the spec: SetGeometry body is missing; replace-all
semantics for the geometry data set (spec 4.1). -/
def SetGeometry (m : OBJ_Mesh) (data : List Rat) : OBJ_Mesh :=
  ⟨m.m_name, data, m.m_normals, m.m_texcoords, m.m_faces⟩

/-- Modelled from the spec: AddGeometry body is missing; append semantics
for the geometry data set (spec 4.1). -/
def AddGeometry (m : OBJ_Mesh) (data : List Rat) : OBJ_Mesh :=
  ⟨m.m_name, m.m_geometry ++ data, m.m_normals, m.m_texcoords, m.m_faces⟩

/-- Modelled from the spec: SetNormals body is missing; replace-all
semantics for the normal data set (spec 4.1). -/
def SetNormals (m : OBJ_Mesh) (data : List Rat) : OBJ_Mesh :=
  ⟨m.m_name, m.m_geometry, data, m.m_texcoords, m.m_faces⟩

/-- Modelled from the spec: AddNormals body is missing; append semantics
for the normal data set (spec 4.1). -/
def AddNormals (m : OBJ_Mesh) (data : List Rat) : OBJ_Mesh :=
  ⟨m.m_name, m.m_geometry, m.m_normals ++ data, m.m_texcoords, m.m_faces⟩

/-- Modelled from the spec: SetTextureData body is missing; replace-all
semantics for the texture coordinate data set (spec 4.1). -/
def SetTextureData (m : OBJ_Mesh) (data : List Rat) : OBJ_Mesh :=
  ⟨m.m_name, m.m_geometry, m.m_normals, data, m.m_faces⟩

/-- Modelled from the spec: AddTextureData body is missing; append
semantics for the texture coordinate data set (spec 4.1). -/
def AddTextureData (m : OBJ_Mesh) (data : List Rat) : OBJ_Mesh :=
  ⟨m.m_name, m.m_geometry, m.m_normals, m.m_texcoords ++ data, m.m_faces⟩

/-- Modelled from the spec: SetFaceData body is missing; replace-all
semantics for the face data set, records taken verbatim (spec 4.1). -/
def SetFaceData (m : OBJ_Mesh) (data : List Face) : OBJ_Mesh :=
  ⟨m.m_name, m.m_geometry, m.m_normals, m.m_texcoords, data⟩

/-- Modelled from the spec: AddFaceData body is missing; append semantics
for the face data set (spec 4.1). -/
def AddFaceData (m : OBJ_Mesh) (data : List Face) : OBJ_Mesh :=
  ⟨m.m_name, m.m_geometry, m.m_normals, m.m_texcoords, m.m_faces ++ data⟩

/-- Modelled from the spec: GetNVertices body is missing; the number of
vertices is the geometry length divided by 3, integer division
(spec 4.1, count accessors). Return type is a C int. -/
def GetNVertices (m : OBJ_Mesh) : Int :=
  ((m.m_geometry.length / 3 : Nat) : Int)

/-- Modelled from the spec: GetNNormals body is missing; normals length
divided by 3 (spec 4.1). -/
def GetNNormals (m : OBJ_Mesh) : Int :=
  ((m.m_normals.length / 3 : Nat) : Int)

/-- Modelled from the spec: GetNTexture body is missing; texcoords length
divided by 3 (spec 4.1). -/
def GetNTexture (m : OBJ_Mesh) : Int :=
  ((m.m_texcoords.length / 3 : Nat) : Int)

/-- Modelled from the spec: GetNFaces body is missing; the face list
length (spec 4.1). -/
def GetNFaces (m : OBJ_Mesh) : Int :=
  ((m.m_faces.length : Nat) : Int)

/-- Modelled from the spec: the per-component accessor bodies are
missing; an index outside [0, count) fails with an OutOfRange error
(spec 4.1); otherwise the i-th triple component is read at flat offset
index*3 + component. -/
def GetVertexX (m : OBJ_Mesh) (index : Int) : Except GbErrorKind Rat :=
  if 0 ≤ index ∧ index < m.GetNVertices then
    Except.ok (m.m_geometry.getD (index.toNat * 3) 0)
  else
    Except.error GbErrorKind.OutOfRange

/-- Modelled from the spec: see GetVertexX; component Y at flat offset
index*3 + 1. -/
def GetVertexY (m : OBJ_Mesh) (index : Int) : Except GbErrorKind Rat :=
  if 0 ≤ index ∧ index < m.GetNVertices then
    Except.ok (m.m_geometry.getD (index.toNat * 3 + 1) 0)
  else
    Except.error GbErrorKind.OutOfRange

/-- Modelled from the spec: see GetVertexX; component Z at flat offset
index*3 + 2. -/
def GetVertexZ (m : OBJ_Mesh) (index : Int) : Except GbErrorKind Rat :=
  if 0 ≤ index ∧ index < m.GetNVertices then
    Except.ok (m.m_geometry.getD (index.toNat * 3 + 2) 0)
  else
    Except.error GbErrorKind.OutOfRange

/-- Modelled from the spec: see GetVertexX, for the normal list. -/
def GetNormalX (m : OBJ_Mesh) (index : Int) : Except GbErrorKind Rat :=
  if 0 ≤ index ∧ index < m.GetNNormals then
    Except.ok (m.m_normals.getD (index.toNat * 3) 0)
  else
    Except.error GbErrorKind.OutOfRange

/-- Modelled from the spec: see GetVertexX, for the normal list. -/
def GetNormalY (m : OBJ_Mesh) (index : Int) : Except GbErrorKind Rat :=
  if 0 ≤ index ∧ index < m.GetNNormals then
    Except.ok (m.m_normals.getD (index.toNat * 3 + 1) 0)
  else
    Except.error GbErrorKind.OutOfRange

/-- Modelled from the spec: see GetVertexX, for the normal list. -/
def GetNormalZ (m : OBJ_Mesh) (index : Int) : Except GbErrorKind Rat :=
  if 0 ≤ index ∧ index < m.GetNNormals then
    Except.ok (m.m_normals.getD (index.toNat * 3 + 2) 0)
  else
    Except.error GbErrorKind.OutOfRange

/-- Modelled from the spec: see GetVertexX, for the texcoord list. -/
def GetTextureX (m : OBJ_Mesh) (index : Int) : Except GbErrorKind Rat :=
  if 0 ≤ index ∧ index < m.GetNTexture then
    Except.ok (m.m_texcoords.getD (index.toNat * 3) 0)
  else
    Except.error GbErrorKind.OutOfRange

/-- Modelled from the spec: see GetVertexX, for the texcoord list. -/
def GetTextureY (m : OBJ_Mesh) (index : Int) : Except GbErrorKind Rat :=
  if 0 ≤ index ∧ index < m.GetNTexture then
    Except.ok (m.m_texcoords.getD (index.toNat * 3 + 1) 0)
  else
    Except.error GbErrorKind.OutOfRange

/-- Modelled from the spec: see GetVertexX, for the texcoord list. -/
def GetTextureZ (m : OBJ_Mesh) (index : Int) : Except GbErrorKind Rat :=
  if 0 ≤ index ∧ index < m.GetNTexture then
    Except.ok (m.m_texcoords.getD (index.toNat * 3 + 2) 0)
  else
    Except.error GbErrorKind.OutOfRange

/-- Modelled from the spec: GetFace body is missing; returns the index-th
face record, OutOfRange outside [0, GetNFaces) (spec 4.1). -/
def GetFace (m : OBJ_Mesh) (index : Int) : Except GbErrorKind Face :=
  if 0 ≤ index ∧ index < m.GetNFaces then
    Except.ok (m.m_faces.getD index.toNat default)
  else
    Except.error GbErrorKind.OutOfRange

end OBJ_Mesh

/-- A list of N coordinate triples flattened to 3*N scalar values, the
shape of the bulk geometry/normal/texcoord data. -/
def flattenTriples (ts : List (Rat × Rat × Rat)) : List Rat :=
  ts.flatMap (fun t => [t.1, t.2.1, t.2.2])

/-- The three consecutive scalar components stored for coordinate triple
number i of a flat data list, read at flat offsets i*3, i*3+1, i*3+2. -/
def tripleAt (l : List Rat) (i : Int) : List Rat :=
  [l.getD (i.toNat * 3) 0, l.getD (i.toNat * 3 + 1) 0, l.getD (i.toNat * 3 + 2) 0]

namespace OBJ_Mesh

/-- Modelled from the spec: GetMeshGeometryUnindexed body is missing;
flattened export (spec 4.1): for each face in order and for each of its 3
corners in order (vertex1, vertex2, vertex3), the coordinate triple
selected by the index of that corner is appended to each requested output
buffer; scale multiplies geometry values only. A null output pointer is
modelled as a false flag; that export is skipped (empty output). -/
def GetMeshGeometryUnindexed (m : OBJ_Mesh)
    (wantGeometry wantNormals wantTexture : Bool) (scale : Rat) :
    List Rat × List Rat × List Rat :=
  ( if wantGeometry then
      m.m_faces.flatMap (fun f =>
        ((tripleAt m.m_geometry f.vert1 ++ tripleAt m.m_geometry f.vert2 ++
          tripleAt m.m_geometry f.vert3).map (fun x => x * scale)))
    else [],
    if wantNormals then
      m.m_faces.flatMap (fun f =>
        tripleAt m.m_normals f.normal1 ++ tripleAt m.m_normals f.normal2 ++
        tripleAt m.m_normals f.normal3)
    else [],
    if wantTexture then
      m.m_faces.flatMap (fun f =>
        tripleAt m.m_texcoords f.texture1 ++ tripleAt m.m_texcoords f.texture2 ++
        tripleAt m.m_texcoords f.texture3)
    else [] )

/-- Modelled from the spec: GetMeshGeometry body is missing; indexed
export (spec 4.1): copies geometry, normals and texcoords verbatim (each
geometry value multiplied by scale) and the face list with indices
unchanged. A null data pointer is modelled as a false flag; that export
is skipped. The faces output is always produced. -/
def GetMeshGeometry (m : OBJ_Mesh)
    (wantGeometry wantNormals wantTexture : Bool) (scale : Rat) :
    List Rat × List Rat × List Rat × List Face :=
  ( if wantGeometry then m.m_geometry.map (fun x => x * scale) else [],
    if wantNormals then m.m_normals else [],
    if wantTexture then m.m_texcoords else [],
    m.m_faces )

end OBJ_Mesh

/-- The OBJ_FileLoader data member (obj_loader.hpp line 230): the ordered
list of meshes found in the file. Exclusive ownership is modelled by
holding mesh values. -/
structure OBJ_FileLoader where
  m_MeshList : List OBJ_Mesh

deriving instance DecidableEq, Repr for OBJ_FileLoader

namespace OBJ_FileLoader

/-- Modelled from the spec: GetNMeshes body is missing; the number of
owned meshes (spec 4.2). -/
def GetNMeshes (fl : OBJ_FileLoader) : Int :=
  ((fl.m_MeshList.length : Nat) : Int)

/-- Modelled from the spec: GetMesh body is missing; read-only accessor,
an index outside [0, GetNMeshes) fails with OutOfRange (spec 4.2). -/
def GetMesh (fl : OBJ_FileLoader) (index : Int) : Except GbErrorKind OBJ_Mesh :=
  if 0 ≤ index ∧ index < fl.GetNMeshes then
    Except.ok (fl.m_MeshList.getD index.toNat (OBJ_Mesh.mkMesh ""))
  else
    Except.error GbErrorKind.OutOfRange

/-- Modelled from the spec: AddMesh body is missing; deep-copies the
argument and appends it to the owned sequence (spec 4.2). With value
semantics the deep copy is the value itself. -/
def AddMesh (fl : OBJ_FileLoader) (mesh : OBJ_Mesh) : OBJ_FileLoader :=
  ⟨fl.m_MeshList ++ [mesh]⟩

end OBJ_FileLoader

/-- One line of the textual OBJ subset (spec section 6), modelled
structurally: object/group markers, vertex position, vertex normal,
texture coordinate, smoothing group (off is -1) and triangular face
lines with 1-based global corner indices (vertex/texture/normal order per
corner); comment, blank and unknown-tag lines are ignored. -/
inductive ObjLine where
  | objName (name : String)
  | groupName (name : String)
  | vLine (x y z : Rat)
  | vnLine (x y z : Rat)
  | vtLine (u v w : Rat)
  | sLine (group : Int)
  | fLine (v1 t1 n1 v2 t2 n2 v3 t3 n3 : Int)
  | ignoredLine

deriving instance DecidableEq, Repr for ObjLine

/-- The consecutive complete coordinate triples of a flat data list; a
trailing fragment of fewer than 3 values carries no complete triple. -/
def chunks3 : List Rat → List (Rat × Rat × Rat)
  | [] => []
  | [_] => []
  | [_, _] => []
  | x :: y :: z :: rest => (x, y, z) :: chunks3 rest

/-- Modelled from the spec: the WriteFile serialization of the face list of one mesh (spec 4.2, inverse textual form of the parser). Each face is
written as its smoothing-group line followed by its face line; mesh-local
0-based indices are written as 1-based indices into the running global
pools, so a corner index i becomes i + base + 1 where base counts the
triples written for earlier meshes of the file. -/
def serializeFaces (fs : List Face) (bV bN bT : Nat) : List ObjLine :=
  fs.flatMap (fun f =>
    [ObjLine.sLine f.smoothing_group,
     ObjLine.fLine (f.vert1 + (bV : Int) + 1) (f.texture1 + (bT : Int) + 1)
       (f.normal1 + (bN : Int) + 1)
       (f.vert2 + (bV : Int) + 1) (f.texture2 + (bT : Int) + 1)
       (f.normal2 + (bN : Int) + 1)
       (f.vert3 + (bV : Int) + 1) (f.texture3 + (bT : Int) + 1)
       (f.normal3 + (bN : Int) + 1)])

/-- Modelled from the spec: the WriteFile serialization of one mesh
(spec 4.2): its object marker, then its geometry, normal, texcoord and
face lines, in the inverse textual form of the parser. -/
def serializeMesh (m : OBJ_Mesh) (bV bN bT : Nat) : List ObjLine :=
  ObjLine.objName m.m_name ::
    ((chunks3 m.m_geometry).map (fun t => ObjLine.vLine t.1 t.2.1 t.2.2) ++
     (chunks3 m.m_normals).map (fun t => ObjLine.vnLine t.1 t.2.1 t.2.2) ++
     (chunks3 m.m_texcoords).map (fun t => ObjLine.vtLine t.1 t.2.1 t.2.2) ++
     serializeFaces m.m_faces bV bN bT)

/-- Modelled from the spec: the WriteFile serialization of the owned mesh
sequence in order (spec 4.2), threading the running global pool sizes. -/
def serializeMeshList : List OBJ_Mesh → Nat → Nat → Nat → List ObjLine
  | [], _, _, _ => []
  | m :: rest, bV, bN, bT =>
      serializeMesh m bV bN bT ++
      serializeMeshList rest (bV + m.m_geometry.length / 3)
        (bN + m.m_normals.length / 3) (bT + m.m_texcoords.length / 3)

/-- Modelled from the spec: WriteFile body is missing; serializes every
owned mesh in order without mutating collection state, and fails with an
IOError when the path cannot be opened for writing (spec 4.2). The file
system is modelled by the canOpen flag and the produced line list; the
collection state after the call is returned alongside the result. -/
def OBJ_FileLoader.WriteFile (fl : OBJ_FileLoader) (canOpen : Bool) :
    OBJ_FileLoader × Except GbErrorKind (List ObjLine) :=
  if canOpen then
    (fl, Except.ok (serializeMeshList fl.m_MeshList 0 0 0))
  else
    (fl, Except.error GbErrorKind.IOError)

/-- The running state of the line-oriented parse: completed meshes in
order, the mesh currently receiving lines, the sizes (in triples) of the
global vertex/normal/texcoord pools at the start of the current mesh,
and the current smoothing group. -/
structure ParseState where
  meshes : List OBJ_Mesh
  current : Option OBJ_Mesh
  baseV : Nat
  baseN : Nat
  baseT : Nat
  smooth : Int

deriving instance Repr for ParseState

/-- Modelled from the spec: an object or group marker begins a new mesh
(spec 4.2); the finished current mesh is appended to the completed list
and its triple counts are added to the global pool bases. -/
def startMesh (st : ParseState) (name : String) : ParseState :=
  match st.current with
  | none =>
      ⟨st.meshes, some (OBJ_Mesh.mkMesh name), st.baseV, st.baseN, st.baseT, st.smooth⟩
  | some c =>
      ⟨st.meshes ++ [c], some (OBJ_Mesh.mkMesh name),
       st.baseV + c.m_geometry.length / 3, st.baseN + c.m_normals.length / 3,
       st.baseT + c.m_texcoords.length / 3, st.smooth⟩

/-- Modelled from the spec: data lines belong to the most recently
started mesh, or to an implicit unnamed mesh if none was declared yet
(spec 4.2). -/
def modifyCurrent (st : ParseState) (f : OBJ_Mesh → OBJ_Mesh) : ParseState :=
  match st.current with
  | none =>
      ⟨st.meshes, some (f (OBJ_Mesh.mkMesh "")), st.baseV, st.baseN, st.baseT, st.smooth⟩
  | some c =>
      ⟨st.meshes, some (f c), st.baseV, st.baseN, st.baseT, st.smooth⟩

/-- Modelled from the spec: the per-line parsing step (spec 4.2 and
section 6). The 1-based global face indices are converted to the chosen
convention, 0-based and local to the per-mesh pools, by subtracting 1 and
the pool base recorded at the start of the current mesh; smoothing-group
markers apply to subsequently parsed faces until changed; unknown lines
are ignored. Index values are not validated at mutation time (spec
section 3). -/
def parseLine (st : ParseState) : ObjLine → ParseState
  | ObjLine.objName name => startMesh st name
  | ObjLine.groupName name => startMesh st name
  | ObjLine.vLine x y z => modifyCurrent st (fun c => c.AddGeometry [x, y, z])
  | ObjLine.vnLine x y z => modifyCurrent st (fun c => c.AddNormals [x, y, z])
  | ObjLine.vtLine u v w => modifyCurrent st (fun c => c.AddTextureData [u, v, w])
  | ObjLine.sLine g => ⟨st.meshes, st.current, st.baseV, st.baseN, st.baseT, g⟩
  | ObjLine.fLine v1 t1 n1 v2 t2 n2 v3 t3 n3 =>
      modifyCurrent st (fun c => c.AddFaceData
        [⟨v1 - 1 - (st.baseV : Int), v2 - 1 - (st.baseV : Int), v3 - 1 - (st.baseV : Int),
          n1 - 1 - (st.baseN : Int), n2 - 1 - (st.baseN : Int), n3 - 1 - (st.baseN : Int),
          t1 - 1 - (st.baseT : Int), t2 - 1 - (st.baseT : Int), t3 - 1 - (st.baseT : Int),
          st.smooth⟩])
  | ObjLine.ignoredLine => st

/-- At end of input the mesh still under construction, if any, joins the
completed list. -/
def finishParse (st : ParseState) : List OBJ_Mesh :=
  st.meshes ++ st.current.toList

/-- The parse starts with no meshes, no current mesh, empty global pools
and the undefined smoothing group -1. -/
def initParseState : ParseState :=
  ⟨[], none, 0, 0, 0, -1⟩

/-- Modelled from the spec: the parsing algorithm (spec 4.2), a single
streamed pass over the lines. -/
def parseLines (lines : List ObjLine) : List OBJ_Mesh :=
  finishParse (lines.foldl parseLine initParseState)

/-- Modelled from the spec and the header doc (obj_loader.hpp lines
262-268): ReadFile fails with InvalidContext when there are already
meshes in the mesh list, and otherwise parses the stream into the
collection. The collection state after the call is returned alongside
the result. -/
def OBJ_FileLoader.ReadFile (fl : OBJ_FileLoader) (lines : List ObjLine) :
    OBJ_FileLoader × Except GbErrorKind Unit :=
  if fl.m_MeshList = [] then
    (⟨parseLines lines⟩, Except.ok ())
  else
    (fl, Except.error GbErrorKind.InvalidContext)

/-- Reading a mesh object through a reference into a heap of mesh
objects; references are heap indices. -/
def heapRead (h : List OBJ_Mesh) (r : Nat) : OBJ_Mesh :=
  h.getD r (OBJ_Mesh.mkMesh "")

/-- Modelled from the spec: the OBJ_Mesh copy constructor body is
missing; copying deep-copies all four data sets and the name with no
shared backing storage (spec section 3 and section 9, deep copy
semantics). Modelled on a heap of mesh objects: the copy is a fresh cell
holding an equal value, and its reference is returned. -/
def heapCopyMesh (h : List OBJ_Mesh) (r : Nat) : List OBJ_Mesh × Nat :=
  (h ++ [heapRead h r], h.length)

/-- Mutating the mesh object behind a reference in place, by any of the
Set/Add/Clear operations f. -/
def heapMutate (h : List OBJ_Mesh) (r : Nat) (f : OBJ_Mesh → OBJ_Mesh) : List OBJ_Mesh :=
  h.set r (f (heapRead h r))

/-- The mesh reconstructed by a write/parse round trip: data lists are
cut to their complete coordinate triples (a no-op when the lengths are
multiples of 3, as the documented precondition demands); name and faces
are kept verbatim. -/
def normMesh (m : OBJ_Mesh) : OBJ_Mesh :=
  ⟨m.m_name, flattenTriples (chunks3 m.m_geometry), flattenTriples (chunks3 m.m_normals),
   flattenTriples (chunks3 m.m_texcoords), m.m_faces⟩

/-- The smoothing group in effect after parsing the serialized form of a
face list, starting from group sm. -/
def smoothAfter (fs : List Face) (sm : Int) : Int :=
  fs.foldl (fun _ f => f.smoothing_group) sm

/-- The number of complete vertex triples held by the mesh currently
under construction, if any. -/
def curVcount : Option OBJ_Mesh → Nat
  | none => 0
  | some c => c.m_geometry.length / 3

/-- The number of complete normal triples held by the mesh currently
under construction, if any. -/
def curNcount : Option OBJ_Mesh → Nat
  | none => 0
  | some c => c.m_normals.length / 3

/-- The number of complete texture coordinate triples held by the mesh
currently under construction, if any. -/
def curTcount : Option OBJ_Mesh → Nat
  | none => 0
  | some c => c.m_texcoords.length / 3

/-- All nine corner indices of a face lie inside the respective
collections of the mesh. -/
def faceInRange (m : OBJ_Mesh) (f : Face) : Prop :=
  (0 ≤ f.vert1 ∧ f.vert1 < m.GetNVertices) ∧
  (0 ≤ f.vert2 ∧ f.vert2 < m.GetNVertices) ∧
  (0 ≤ f.vert3 ∧ f.vert3 < m.GetNVertices) ∧
  (0 ≤ f.normal1 ∧ f.normal1 < m.GetNNormals) ∧
  (0 ≤ f.normal2 ∧ f.normal2 < m.GetNNormals) ∧
  (0 ≤ f.normal3 ∧ f.normal3 < m.GetNNormals) ∧
  (0 ≤ f.texture1 ∧ f.texture1 < m.GetNTexture) ∧
  (0 ≤ f.texture2 ∧ f.texture2 < m.GetNTexture) ∧
  (0 ≤ f.texture3 ∧ f.texture3 < m.GetNTexture)

instance (m : OBJ_Mesh) (f : Face) : Decidable (faceInRange m f) := by
  unfold faceInRange
  infer_instance

/-- A small concrete mesh used to instantiate the general theorems: three
vertices, one normal, one texture coordinate and a single face whose
corners are the vertices 0, 1, 2. -/
def sampleMesh : OBJ_Mesh :=
  ⟨"tri", [1, 2, 3, 4, 5, 6, 7, 8, 9], [10, 11, 12], [20, 21, 22],
   [⟨0, 1, 2, 0, 0, 0, 0, 0, 0, -1⟩]⟩

/-- A small concrete collection owning one mesh. -/
def sampleLoader : OBJ_FileLoader :=
  ⟨[sampleMesh]⟩

/-- A mesh whose geometry length 8 is deliberately not a multiple of 3,
used to instantiate the count and bounds theorem. -/
def raggedMesh : OBJ_Mesh :=
  (OBJ_Mesh.mkMesh "m").SetGeometry [1, 2, 3, 4, 5, 6, 7, 8]

theorem flattenTriples_nil : flattenTriples [] = [] := rfl

theorem flattenTriples_cons (t : Rat × Rat × Rat) (ts : List (Rat × Rat × Rat)) :
    flattenTriples (t :: ts) = t.1 :: t.2.1 :: t.2.2 :: flattenTriples ts := rfl

theorem flattenTriples_length (ts : List (Rat × Rat × Rat)) :
    (flattenTriples ts).length = 3 * ts.length := by
  induction ts with
  | nil => rfl
  | cons t ts ih => simp [flattenTriples_cons, ih]; ring

theorem flattenTriples_get (ts : List (Rat × Rat × Rat)) (k : Nat) (h : k < ts.length) :
    (flattenTriples ts).get? (k * 3) = some (ts.get ⟨k, h⟩).1 ∧
    (flattenTriples ts).get? (k * 3 + 1) = some (ts.get ⟨k, h⟩).2.1 ∧
    (flattenTriples ts).get? (k * 3 + 2) = some (ts.get ⟨k, h⟩).2.2 := by
  induction ts generalizing k with
  | nil => exact absurd h (Nat.not_lt_zero k)
  | cons t ts ih =>
    cases k with
    | zero => exact ⟨rfl, rfl, rfl⟩
    | succ k =>
      have hk : k < ts.length := Nat.lt_of_succ_lt_succ h
      have e : (k + 1) * 3 = (k * 3) + 3 := by ring
      rw [flattenTriples_cons]
      rw [e]
      simpa using ih k hk

/-- C1: for every sequence of N valid vertex triples passed to
SetGeometry, GetNVertices afterwards returns N, and GetVertexX, GetVertexY
and GetVertexZ reproduce exactly the X, Y and Z values of the i-th input
triple for every i below N. -/
theorem setGeometry_reproduces (m : OBJ_Mesh) (ts : List (Rat × Rat × Rat)) :
    (m.SetGeometry (flattenTriples ts)).GetNVertices = ts.length ∧
    ∀ k : Nat, ∀ h : k < ts.length,
      (m.SetGeometry (flattenTriples ts)).GetVertexX k = Except.ok (ts.get ⟨k, h⟩).1 ∧
      (m.SetGeometry (flattenTriples ts)).GetVertexY k = Except.ok (ts.get ⟨k, h⟩).2.1 ∧
      (m.SetGeometry (flattenTriples ts)).GetVertexZ k = Except.ok (ts.get ⟨k, h⟩).2.2 := by
  have hcount : (m.SetGeometry (flattenTriples ts)).GetNVertices = (ts.length : Int) := by
    simp [OBJ_Mesh.SetGeometry, OBJ_Mesh.GetNVertices, flattenTriples_length,
      Nat.mul_div_cancel_left]
  refine ⟨hcount, ?_⟩
  intro k h
  obtain ⟨h1, h2, h3⟩ := flattenTriples_get ts k h
  have hcond : 0 ≤ (k : Int) ∧ (k : Int) < (m.SetGeometry (flattenTriples ts)).GetNVertices := by
    rw [hcount]
    exact ⟨Int.natCast_nonneg k, by exact_mod_cast h⟩
  refine ⟨?_, ?_, ?_⟩
  · rw [OBJ_Mesh.GetVertexX, if_pos hcond]
    simp only [OBJ_Mesh.SetGeometry, Int.toNat_natCast]
    rw [List.getD_eq_getElem?_getD, ← List.get?_eq_getElem?, h1]
    rfl
  · rw [OBJ_Mesh.GetVertexY, if_pos hcond]
    simp only [OBJ_Mesh.SetGeometry, Int.toNat_natCast]
    rw [List.getD_eq_getElem?_getD, ← List.get?_eq_getElem?, h2]
    rfl
  · rw [OBJ_Mesh.GetVertexZ, if_pos hcond]
    simp only [OBJ_Mesh.SetGeometry, Int.toNat_natCast]
    rw [List.getD_eq_getElem?_getD, ← List.get?_eq_getElem?, h3]
    rfl

/-- Witness for C1 at a concrete input: two triples set on the sample
mesh are reproduced. -/
theorem setGeometry_reproduces_witness :
    (sampleMesh.SetGeometry (flattenTriples [(1, 2, 3), (4, 5, 6)])).GetNVertices = 2 ∧
    (sampleMesh.SetGeometry (flattenTriples [(1, 2, 3), (4, 5, 6)])).GetVertexX 1 =
      Except.ok 4 ∧
    (sampleMesh.SetGeometry (flattenTriples [(1, 2, 3), (4, 5, 6)])).GetVertexZ 1 =
      Except.ok 6 := by
  have h := setGeometry_reproduces sampleMesh [(1, 2, 3), (4, 5, 6)]
  exact ⟨h.1, (h.2 1 (by decide)).1, (h.2 1 (by decide)).2.2⟩

theorem tripleAt_length (l : List Rat) (i : Int) : (tripleAt l i).length = 3 := rfl

theorem vertexOffset_bound (len : Nat) (i : Int) (h0 : 0 ≤ i)
    (h : i < ((len / 3 : Nat) : Int)) : i.toNat * 3 + 2 < len := by
  omega

theorem tripleAt_eq_take_drop (l : List Rat) (i : Int) (h : i.toNat * 3 + 2 < l.length) :
    tripleAt l i = (l.drop (i.toNat * 3)).take 3 := by
  have h0 : i.toNat * 3 < l.length := by omega
  have h1 : i.toNat * 3 + 1 < l.length := by omega
  apply List.ext_getElem
  · simp [tripleAt]
    omega
  · intro j hj1 hj2
    simp only [tripleAt, List.length_cons, List.length_nil] at hj1
    interval_cases j <;>
      simp [tripleAt, List.getElem_take, List.getElem_drop, List.getD_eq_getElem?_getD,
        List.getElem?_eq_getElem, h0, h1, h]

theorem flatMap_const_length {α β : Type} (l : List α) (g : α → List β) (c : Nat)
    (h : ∀ a, (g a).length = c) : (l.flatMap g).length = l.length * c := by
  induction l with
  | nil => simp
  | cons a l ih => simp [ih, h a]; ring

theorem flatMap_congr_mem {α β : Type} {l : List α} {f g : α → List β}
    (h : ∀ a ∈ l, f a = g a) : l.flatMap f = l.flatMap g := by
  induction l with
  | nil => rfl
  | cons a l ih =>
    simp only [List.flatMap_cons, h a (List.mem_cons_self a l)]
    rw [ih fun b hb => h b (List.mem_cons_of_mem a hb)]

/-- C2: for a mesh whose face indices are in range, the unindexed export
visits the faces in order and appends, for each of the 3 corners in
order, the coordinate triple selected by the index of that corner to each
requested buffer, producing exactly n_faces*9 values per buffer; the
selected geometry triple of corner index v is the slice at flat offsets
v*3, v*3+1, v*3+2 (geometry values multiplied by the scale factor,
normals and texcoords taken as stored). -/
theorem unindexed_export (m : OBJ_Mesh) (scale : Rat)
    (hf : ∀ f ∈ m.m_faces, faceInRange m f) :
    (m.GetMeshGeometryUnindexed true true true scale).1.length = m.m_faces.length * 9 ∧
    (m.GetMeshGeometryUnindexed true true true scale).2.1.length = m.m_faces.length * 9 ∧
    (m.GetMeshGeometryUnindexed true true true scale).2.2.length = m.m_faces.length * 9 ∧
    (m.GetMeshGeometryUnindexed true true true scale).1 =
      m.m_faces.flatMap (fun f =>
        ((m.m_geometry.drop (f.vert1.toNat * 3)).take 3 ++
         (m.m_geometry.drop (f.vert2.toNat * 3)).take 3 ++
         (m.m_geometry.drop (f.vert3.toNat * 3)).take 3).map (fun x => x * scale)) ∧
    (m.GetMeshGeometryUnindexed true true true scale).2.1 =
      m.m_faces.flatMap (fun f =>
        (m.m_normals.drop (f.normal1.toNat * 3)).take 3 ++
        (m.m_normals.drop (f.normal2.toNat * 3)).take 3 ++
        (m.m_normals.drop (f.normal3.toNat * 3)).take 3) ∧
    (m.GetMeshGeometryUnindexed true true true scale).2.2 =
      m.m_faces.flatMap (fun f =>
        (m.m_texcoords.drop (f.texture1.toNat * 3)).take 3 ++
        (m.m_texcoords.drop (f.texture2.toNat * 3)).take 3 ++
        (m.m_texcoords.drop (f.texture3.toNat * 3)).take 3) := by
  have e1 : (m.GetMeshGeometryUnindexed true true true scale).1 =
      m.m_faces.flatMap (fun f =>
        ((tripleAt m.m_geometry f.vert1 ++ tripleAt m.m_geometry f.vert2 ++
          tripleAt m.m_geometry f.vert3).map (fun x => x * scale))) := by
    simp [OBJ_Mesh.GetMeshGeometryUnindexed]
  have e2 : (m.GetMeshGeometryUnindexed true true true scale).2.1 =
      m.m_faces.flatMap (fun f =>
        tripleAt m.m_normals f.normal1 ++ tripleAt m.m_normals f.normal2 ++
        tripleAt m.m_normals f.normal3) := by
    simp [OBJ_Mesh.GetMeshGeometryUnindexed]
  have e3 : (m.GetMeshGeometryUnindexed true true true scale).2.2 =
      m.m_faces.flatMap (fun f =>
        tripleAt m.m_texcoords f.texture1 ++ tripleAt m.m_texcoords f.texture2 ++
        tripleAt m.m_texcoords f.texture3) := by
    simp [OBJ_Mesh.GetMeshGeometryUnindexed]
  refine ⟨?_, ?_, ?_, ?_, ?_, ?_⟩
  · rw [e1]
    exact flatMap_const_length _ _ 9 fun f => by simp [tripleAt]
  · rw [e2]
    exact flatMap_const_length _ _ 9 fun f => by simp [tripleAt]
  · rw [e3]
    exact flatMap_const_length _ _ 9 fun f => by simp [tripleAt]
  · rw [e1]
    refine flatMap_congr_mem fun f hfm => ?_
    obtain ⟨⟨a1, b1⟩, ⟨a2, b2⟩, ⟨a3, b3⟩, -⟩ := hf f hfm
    rw [tripleAt_eq_take_drop _ _ (vertexOffset_bound _ _ a1 b1),
      tripleAt_eq_take_drop _ _ (vertexOffset_bound _ _ a2 b2),
      tripleAt_eq_take_drop _ _ (vertexOffset_bound _ _ a3 b3)]
  · rw [e2]
    refine flatMap_congr_mem fun f hfm => ?_
    obtain ⟨-, -, -, ⟨a1, b1⟩, ⟨a2, b2⟩, ⟨a3, b3⟩, -⟩ := hf f hfm
    rw [tripleAt_eq_take_drop _ _ (vertexOffset_bound _ _ a1 b1),
      tripleAt_eq_take_drop _ _ (vertexOffset_bound _ _ a2 b2),
      tripleAt_eq_take_drop _ _ (vertexOffset_bound _ _ a3 b3)]
  · rw [e3]
    refine flatMap_congr_mem fun f hfm => ?_
    obtain ⟨-, -, -, -, -, -, ⟨a1, b1⟩, ⟨a2, b2⟩, ⟨a3, b3⟩⟩ := hf f hfm
    rw [tripleAt_eq_take_drop _ _ (vertexOffset_bound _ _ a1 b1),
      tripleAt_eq_take_drop _ _ (vertexOffset_bound _ _ a2 b2),
      tripleAt_eq_take_drop _ _ (vertexOffset_bound _ _ a3 b3)]

/-- Witness for C2: the sample mesh has 3 vertices and exactly one face
with corners 0, 1, 2; its unindexed geometry output at scale 1 is
geometry[0..2], geometry[3..5], geometry[6..8] in that order. -/
theorem unindexed_export_witness :
    (sampleMesh.GetMeshGeometryUnindexed true true true 1).1 =
      [1, 2, 3, 4, 5, 6, 7, 8, 9] := by
  have h := unindexed_export sampleMesh 1 (by decide)
  rw [h.2.2.2.1]
  norm_num [sampleMesh, Int.toNat_ofNat]
  decide

theorem accessor_triple (l : List Rat) (i : Int) (h0 : 0 ≤ i)
    (h1 : i < ((l.length / 3 : Nat) : Int)) :
    i.toNat * 3 + 2 < l.length ∧
    ∃ x y z, l.get? (i.toNat * 3) = some x ∧ l.get? (i.toNat * 3 + 1) = some y ∧
      l.get? (i.toNat * 3 + 2) = some z ∧
      l.getD (i.toNat * 3) 0 = x ∧ l.getD (i.toNat * 3 + 1) 0 = y ∧
      l.getD (i.toNat * 3 + 2) 0 = z := by
  have hb : i.toNat * 3 + 2 < l.length := by omega
  have hb0 : i.toNat * 3 < l.length := by omega
  have hb1 : i.toNat * 3 + 1 < l.length := by omega
  exact ⟨hb, l.get ⟨i.toNat * 3, hb0⟩, l.get ⟨i.toNat * 3 + 1, hb1⟩, l.get ⟨i.toNat * 3 + 2, hb⟩,
    by simp [List.get?_eq_getElem?, List.getElem?_eq_getElem, hb, hb0, hb1,
      List.getD_eq_getElem?_getD]⟩

/-- C10: the count accessors return the floor of the data length divided
by 3 (the face count is the face list length exactly), even when the
length is not a multiple of 3, and every per-component access with an
index in [0, count) reads an actual element strictly inside the
underlying array, at flat offsets index*3 .. index*3+2. -/
theorem counts_and_inbounds (m : OBJ_Mesh) (i : Int) :
    m.GetNVertices = (m.m_geometry.length : Int) / 3 ∧
    m.GetNNormals = (m.m_normals.length : Int) / 3 ∧
    m.GetNTexture = (m.m_texcoords.length : Int) / 3 ∧
    m.GetNFaces = (m.m_faces.length : Int) ∧
    (0 ≤ i → i < m.GetNVertices →
      i.toNat * 3 + 2 < m.m_geometry.length ∧
      ∃ x y z, m.m_geometry.get? (i.toNat * 3) = some x ∧
        m.m_geometry.get? (i.toNat * 3 + 1) = some y ∧
        m.m_geometry.get? (i.toNat * 3 + 2) = some z ∧
        m.GetVertexX i = Except.ok x ∧ m.GetVertexY i = Except.ok y ∧
        m.GetVertexZ i = Except.ok z) ∧
    (0 ≤ i → i < m.GetNNormals →
      i.toNat * 3 + 2 < m.m_normals.length ∧
      ∃ x y z, m.m_normals.get? (i.toNat * 3) = some x ∧
        m.m_normals.get? (i.toNat * 3 + 1) = some y ∧
        m.m_normals.get? (i.toNat * 3 + 2) = some z ∧
        m.GetNormalX i = Except.ok x ∧ m.GetNormalY i = Except.ok y ∧
        m.GetNormalZ i = Except.ok z) ∧
    (0 ≤ i → i < m.GetNTexture →
      i.toNat * 3 + 2 < m.m_texcoords.length ∧
      ∃ x y z, m.m_texcoords.get? (i.toNat * 3) = some x ∧
        m.m_texcoords.get? (i.toNat * 3 + 1) = some y ∧
        m.m_texcoords.get? (i.toNat * 3 + 2) = some z ∧
        m.GetTextureX i = Except.ok x ∧ m.GetTextureY i = Except.ok y ∧
        m.GetTextureZ i = Except.ok z) := by
  refine ⟨by simp [OBJ_Mesh.GetNVertices], by simp [OBJ_Mesh.GetNNormals],
    by simp [OBJ_Mesh.GetNTexture], rfl, fun h0 h1 => ?_, fun h0 h1 => ?_,
    fun h0 h1 => ?_⟩
  · obtain ⟨hb, x, y, z, g1, g2, g3, d1, d2, d3⟩ := accessor_triple m.m_geometry i h0 h1
    refine ⟨hb, x, y, z, g1, g2, g3, ?_, ?_, ?_⟩
    · rw [OBJ_Mesh.GetVertexX, if_pos ⟨h0, h1⟩, d1]
    · rw [OBJ_Mesh.GetVertexY, if_pos ⟨h0, h1⟩, d2]
    · rw [OBJ_Mesh.GetVertexZ, if_pos ⟨h0, h1⟩, d3]
  · obtain ⟨hb, x, y, z, g1, g2, g3, d1, d2, d3⟩ := accessor_triple m.m_normals i h0 h1
    refine ⟨hb, x, y, z, g1, g2, g3, ?_, ?_, ?_⟩
    · rw [OBJ_Mesh.GetNormalX, if_pos ⟨h0, h1⟩, d1]
    · rw [OBJ_Mesh.GetNormalY, if_pos ⟨h0, h1⟩, d2]
    · rw [OBJ_Mesh.GetNormalZ, if_pos ⟨h0, h1⟩, d3]
  · obtain ⟨hb, x, y, z, g1, g2, g3, d1, d2, d3⟩ := accessor_triple m.m_texcoords i h0 h1
    refine ⟨hb, x, y, z, g1, g2, g3, ?_, ?_, ?_⟩
    · rw [OBJ_Mesh.GetTextureX, if_pos ⟨h0, h1⟩, d1]
    · rw [OBJ_Mesh.GetTextureY, if_pos ⟨h0, h1⟩, d2]
    · rw [OBJ_Mesh.GetTextureZ, if_pos ⟨h0, h1⟩, d3]

/-- Witness for C10 on a mesh whose geometry length 8 is not a multiple
of 3: the vertex count is 2 and the access at index 1 stays in bounds. -/
theorem counts_and_inbounds_witness :
    raggedMesh.GetNVertices = (raggedMesh.m_geometry.length : Int) / 3 ∧
    ((1 : Int).toNat * 3 + 2 < raggedMesh.m_geometry.length ∧
      ∃ x y z,
        raggedMesh.m_geometry.get? ((1 : Int).toNat * 3) = some x ∧
        raggedMesh.m_geometry.get? ((1 : Int).toNat * 3 + 1) = some y ∧
        raggedMesh.m_geometry.get? ((1 : Int).toNat * 3 + 2) = some z ∧
        raggedMesh.GetVertexX 1 = Except.ok x ∧
        raggedMesh.GetVertexY 1 = Except.ok y ∧
        raggedMesh.GetVertexZ 1 = Except.ok z) := by
  have h := counts_and_inbounds raggedMesh 1
  exact ⟨h.1, h.2.2.2.2.1 (by decide) (by decide)⟩

/-- C3: the indexed export writes each stored geometry value multiplied
by the scale factor, writes the normal and texcoord values verbatim, and
copies the face list with all index fields unchanged; with scale 2 every
exported position coordinate is twice the stored value as the instance
scale = 2 of this statement. -/
theorem getMeshGeometry_scales (m : OBJ_Mesh) (scale : Rat) :
    (m.GetMeshGeometry true true true scale).1.length = m.m_geometry.length ∧
    (∀ i : Nat, (m.GetMeshGeometry true true true scale).1.get? i =
      (m.m_geometry.get? i).map (fun x => x * scale)) ∧
    (m.GetMeshGeometry true true true scale).2.1 = m.m_normals ∧
    (m.GetMeshGeometry true true true scale).2.2.1 = m.m_texcoords ∧
    (m.GetMeshGeometry true true true scale).2.2.2 = m.m_faces := by
  refine ⟨by simp [OBJ_Mesh.GetMeshGeometry], ?_, rfl, rfl, rfl⟩
  intro i
  simp [OBJ_Mesh.GetMeshGeometry, List.get?_eq_getElem?, List.getElem?_map]

/-- C4: every per-component accessor and the collection accessor fail
with an OutOfRange error whenever the index lies outside [0, count) of
the respective collection. -/
theorem accessors_out_of_range (m : OBJ_Mesh) (fl : OBJ_FileLoader) (i : Int) :
    (¬(0 ≤ i ∧ i < m.GetNVertices) →
      m.GetVertexX i = Except.error GbErrorKind.OutOfRange ∧
      m.GetVertexY i = Except.error GbErrorKind.OutOfRange ∧
      m.GetVertexZ i = Except.error GbErrorKind.OutOfRange) ∧
    (¬(0 ≤ i ∧ i < m.GetNNormals) →
      m.GetNormalX i = Except.error GbErrorKind.OutOfRange ∧
      m.GetNormalY i = Except.error GbErrorKind.OutOfRange ∧
      m.GetNormalZ i = Except.error GbErrorKind.OutOfRange) ∧
    (¬(0 ≤ i ∧ i < m.GetNTexture) →
      m.GetTextureX i = Except.error GbErrorKind.OutOfRange ∧
      m.GetTextureY i = Except.error GbErrorKind.OutOfRange ∧
      m.GetTextureZ i = Except.error GbErrorKind.OutOfRange) ∧
    (¬(0 ≤ i ∧ i < m.GetNFaces) →
      m.GetFace i = Except.error GbErrorKind.OutOfRange) ∧
    (¬(0 ≤ i ∧ i < fl.GetNMeshes) →
      fl.GetMesh i = Except.error GbErrorKind.OutOfRange) := by
  refine ⟨fun h => ?_, fun h => ?_, fun h => ?_, fun h => ?_, fun h => ?_⟩
  · exact ⟨by rw [OBJ_Mesh.GetVertexX, if_neg h], by rw [OBJ_Mesh.GetVertexY, if_neg h],
      by rw [OBJ_Mesh.GetVertexZ, if_neg h]⟩
  · exact ⟨by rw [OBJ_Mesh.GetNormalX, if_neg h], by rw [OBJ_Mesh.GetNormalY, if_neg h],
      by rw [OBJ_Mesh.GetNormalZ, if_neg h]⟩
  · exact ⟨by rw [OBJ_Mesh.GetTextureX, if_neg h], by rw [OBJ_Mesh.GetTextureY, if_neg h],
      by rw [OBJ_Mesh.GetTextureZ, if_neg h]⟩
  · rw [OBJ_Mesh.GetFace, if_neg h]
  · rw [OBJ_FileLoader.GetMesh, if_neg h]

/-- Witness for C4 at a concrete out-of-range index on the sample data. -/
theorem accessors_out_of_range_witness :
    sampleMesh.GetVertexX 99 = Except.error GbErrorKind.OutOfRange ∧
    sampleMesh.GetNormalX 99 = Except.error GbErrorKind.OutOfRange ∧
    sampleMesh.GetTextureX 99 = Except.error GbErrorKind.OutOfRange ∧
    sampleMesh.GetFace 99 = Except.error GbErrorKind.OutOfRange ∧
    sampleLoader.GetMesh 99 = Except.error GbErrorKind.OutOfRange := by
  have h := accessors_out_of_range sampleMesh sampleLoader 99
  exact ⟨(h.1 (by decide)).1, (h.2.1 (by decide)).1, (h.2.2.1 (by decide)).1,
    h.2.2.2.1 (by decide), h.2.2.2.2 (by decide)⟩

/-- C5: invoking the parse operation on a collection that already owns at
least one mesh fails with an InvalidContext error and leaves the owned
meshes unchanged. -/
theorem readFile_parse_once (fl : OBJ_FileLoader) (lines : List ObjLine)
    (h : fl.m_MeshList ≠ []) :
    fl.ReadFile lines = (fl, Except.error GbErrorKind.InvalidContext) := by
  rw [OBJ_FileLoader.ReadFile, if_neg h]

/-- Witness for C5: the sample collection owns one mesh, so a second
parse fails with InvalidContext and keeps the collection. -/
theorem readFile_parse_once_witness :
    sampleLoader.ReadFile [] = (sampleLoader, Except.error GbErrorKind.InvalidContext) :=
  readFile_parse_once sampleLoader [] (by simp [sampleLoader])

/-- C7: in the indexed export each of the three data outputs may be
skipped independently via a null buffer while the others are still
produced, and the faces output is always produced. -/
theorem getMeshGeometry_null_skip (m : OBJ_Mesh) (scale : Rat)
    (wantGeometry wantNormals wantTexture : Bool) :
    (m.GetMeshGeometry wantGeometry wantNormals wantTexture scale).1 =
      (if wantGeometry then (m.GetMeshGeometry true true true scale).1 else []) ∧
    (m.GetMeshGeometry wantGeometry wantNormals wantTexture scale).2.1 =
      (if wantNormals then (m.GetMeshGeometry true true true scale).2.1 else []) ∧
    (m.GetMeshGeometry wantGeometry wantNormals wantTexture scale).2.2.1 =
      (if wantTexture then (m.GetMeshGeometry true true true scale).2.2.1 else []) ∧
    (m.GetMeshGeometry wantGeometry wantNormals wantTexture scale).2.2.2 = m.m_faces := by
  cases wantGeometry <;> cases wantNormals <;> cases wantTexture <;>
    simp [OBJ_Mesh.GetMeshGeometry]

/-- C9: WriteFile never mutates the collection state, and fails with an
IOError when the path cannot be opened for writing. -/
theorem writeFile_const_and_ioerror (fl : OBJ_FileLoader) (canOpen : Bool) :
    (fl.WriteFile canOpen).1 = fl ∧
    (fl.WriteFile false).2 = Except.error GbErrorKind.IOError := by
  cases canOpen <;> simp [OBJ_FileLoader.WriteFile]

/-- C8: copying a mesh (directly or through AddMesh, which deep-copies
before appending) yields a mesh equal to the original in name, geometry,
normals, texcoords and faces, held in fresh storage: mutating the copy
afterwards leaves the original unchanged and mutating the original
leaves the copy unchanged. -/
theorem mesh_copy_independent (h : List OBJ_Mesh) (r : Nat) (hr : r < h.length)
    (f g : OBJ_Mesh → OBJ_Mesh) (fl : OBJ_FileLoader) (mesh : OBJ_Mesh) :
    (heapRead (heapCopyMesh h r).1 (heapCopyMesh h r).2).m_name = (heapRead h r).m_name ∧
    (heapRead (heapCopyMesh h r).1 (heapCopyMesh h r).2).m_geometry = (heapRead h r).m_geometry ∧
    (heapRead (heapCopyMesh h r).1 (heapCopyMesh h r).2).m_normals = (heapRead h r).m_normals ∧
    (heapRead (heapCopyMesh h r).1 (heapCopyMesh h r).2).m_texcoords = (heapRead h r).m_texcoords ∧
    (heapRead (heapCopyMesh h r).1 (heapCopyMesh h r).2).m_faces = (heapRead h r).m_faces ∧
    heapRead (heapMutate (heapCopyMesh h r).1 (heapCopyMesh h r).2 f) r = heapRead h r ∧
    heapRead (heapMutate (heapCopyMesh h r).1 r g) (heapCopyMesh h r).2 = heapRead h r ∧
    (fl.AddMesh mesh).m_MeshList = fl.m_MeshList ++ [mesh] := by
  have hne : r ≠ h.length := Nat.ne_of_lt hr
  have hcell : heapRead (heapCopyMesh h r).1 (heapCopyMesh h r).2 = heapRead h r := by
    simp [heapRead, heapCopyMesh, List.getD_eq_getElem?_getD]
  refine ⟨by rw [hcell], by rw [hcell], by rw [hcell], by rw [hcell], by rw [hcell], ?_, ?_, rfl⟩
  · simp only [heapRead, heapCopyMesh, heapMutate]
    rw [List.getD_eq_getElem?_getD, List.getElem?_set_ne (Ne.symm hne),
      List.getElem?_append_left hr, ← List.getD_eq_getElem?_getD]
  · simp only [heapRead, heapCopyMesh, heapMutate]
    rw [List.getD_eq_getElem?_getD, List.getElem?_set_ne hne]
    simp [List.getD_eq_getElem?_getD]

/-- Witness for C8: copying the sample mesh inside a one-cell heap and
then renaming the copy leaves the original cell unchanged. -/
theorem mesh_copy_independent_witness :
    heapRead (heapMutate (heapCopyMesh [sampleMesh] 0).1 (heapCopyMesh [sampleMesh] 0).2
      (fun c => c.SetName "copy")) 0 = heapRead [sampleMesh] 0 ∧
    heapRead (heapMutate (heapCopyMesh [sampleMesh] 0).1 0
      (fun c => c.SetGeometry [])) (heapCopyMesh [sampleMesh] 0).2 = heapRead [sampleMesh] 0 := by
  have h := mesh_copy_independent [sampleMesh] 0 (by decide) (fun c => c.SetName "copy")
    (fun c => c.SetGeometry []) sampleLoader sampleMesh
  exact ⟨h.2.2.2.2.2.1, h.2.2.2.2.2.2.1⟩

theorem chunks3_length : ∀ l : List Rat, (chunks3 l).length = l.length / 3
  | [] => by simp [chunks3]
  | [_] => by simp [chunks3]
  | [_, _] => by simp [chunks3]
  | x :: y :: z :: rest => by
      have ih := chunks3_length rest
      simp [chunks3, ih]
      omega

theorem flattenTriples_chunks3_length (l : List Rat) :
    (flattenTriples (chunks3 l)).length = 3 * (l.length / 3) := by
  rw [flattenTriples_length, chunks3_length]

theorem normMesh_counts (m : OBJ_Mesh) :
    (normMesh m).GetNVertices = m.GetNVertices ∧
    (normMesh m).GetNNormals = m.GetNNormals ∧
    (normMesh m).GetNTexture = m.GetNTexture ∧
    (normMesh m).m_faces = m.m_faces := by
  refine ⟨?_, ?_, ?_, rfl⟩ <;>
    simp [normMesh, OBJ_Mesh.GetNVertices, OBJ_Mesh.GetNNormals, OBJ_Mesh.GetNTexture,
      flattenTriples_chunks3_length]

theorem restoreIdx (a : Int) (b : Nat) : a + (b : Int) + 1 - 1 - (b : Int) = a := by
  ring

theorem foldl_parse_vLines (ts : List (Rat × Rat × Rat)) :
    ∀ (ms : List OBJ_Mesh) (nm : String) (g n t : List Rat) (fs : List Face)
      (bV bN bT : Nat) (sm : Int),
      List.foldl parseLine ⟨ms, some ⟨nm, g, n, t, fs⟩, bV, bN, bT, sm⟩
        (ts.map fun tr => ObjLine.vLine tr.1 tr.2.1 tr.2.2) =
      ⟨ms, some ⟨nm, g ++ flattenTriples ts, n, t, fs⟩, bV, bN, bT, sm⟩ := by
  induction ts with
  | nil =>
    intro ms nm g n t fs bV bN bT sm
    simp [flattenTriples_nil]
  | cons tr ts ih =>
    intro ms nm g n t fs bV bN bT sm
    simp only [List.map_cons, List.foldl_cons, parseLine, modifyCurrent, OBJ_Mesh.AddGeometry]
    rw [ih]
    simp [flattenTriples_cons]

theorem foldl_parse_vnLines (ts : List (Rat × Rat × Rat)) :
    ∀ (ms : List OBJ_Mesh) (nm : String) (g n t : List Rat) (fs : List Face)
      (bV bN bT : Nat) (sm : Int),
      List.foldl parseLine ⟨ms, some ⟨nm, g, n, t, fs⟩, bV, bN, bT, sm⟩
        (ts.map fun tr => ObjLine.vnLine tr.1 tr.2.1 tr.2.2) =
      ⟨ms, some ⟨nm, g, n ++ flattenTriples ts, t, fs⟩, bV, bN, bT, sm⟩ := by
  induction ts with
  | nil =>
    intro ms nm g n t fs bV bN bT sm
    simp [flattenTriples_nil]
  | cons tr ts ih =>
    intro ms nm g n t fs bV bN bT sm
    simp only [List.map_cons, List.foldl_cons, parseLine, modifyCurrent, OBJ_Mesh.AddNormals]
    rw [ih]
    simp [flattenTriples_cons]

theorem foldl_parse_vtLines (ts : List (Rat × Rat × Rat)) :
    ∀ (ms : List OBJ_Mesh) (nm : String) (g n t : List Rat) (fs : List Face)
      (bV bN bT : Nat) (sm : Int),
      List.foldl parseLine ⟨ms, some ⟨nm, g, n, t, fs⟩, bV, bN, bT, sm⟩
        (ts.map fun tr => ObjLine.vtLine tr.1 tr.2.1 tr.2.2) =
      ⟨ms, some ⟨nm, g, n, t ++ flattenTriples ts, fs⟩, bV, bN, bT, sm⟩ := by
  induction ts with
  | nil =>
    intro ms nm g n t fs bV bN bT sm
    simp [flattenTriples_nil]
  | cons tr ts ih =>
    intro ms nm g n t fs bV bN bT sm
    simp only [List.map_cons, List.foldl_cons, parseLine, modifyCurrent, OBJ_Mesh.AddTextureData]
    rw [ih]
    simp [flattenTriples_cons]

theorem serializeFaces_cons (f : Face) (fs : List Face) (bV bN bT : Nat) :
    serializeFaces (f :: fs) bV bN bT =
      ObjLine.sLine f.smoothing_group ::
      ObjLine.fLine (f.vert1 + (bV : Int) + 1) (f.texture1 + (bT : Int) + 1)
        (f.normal1 + (bN : Int) + 1)
        (f.vert2 + (bV : Int) + 1) (f.texture2 + (bT : Int) + 1)
        (f.normal2 + (bN : Int) + 1)
        (f.vert3 + (bV : Int) + 1) (f.texture3 + (bT : Int) + 1)
        (f.normal3 + (bN : Int) + 1) ::
      serializeFaces fs bV bN bT := by
  simp [serializeFaces]

theorem smoothAfter_cons (f : Face) (fs : List Face) (sm : Int) :
    smoothAfter (f :: fs) sm = smoothAfter fs f.smoothing_group := rfl

theorem foldl_parse_faceLines (fs : List Face) :
    ∀ (ms : List OBJ_Mesh) (nm : String) (g n t : List Rat) (fs0 : List Face)
      (bV bN bT : Nat) (sm : Int),
      List.foldl parseLine ⟨ms, some ⟨nm, g, n, t, fs0⟩, bV, bN, bT, sm⟩
        (serializeFaces fs bV bN bT) =
      ⟨ms, some ⟨nm, g, n, t, fs0 ++ fs⟩, bV, bN, bT, smoothAfter fs sm⟩ := by
  induction fs with
  | nil =>
    intro ms nm g n t fs0 bV bN bT sm
    simp [serializeFaces, smoothAfter]
  | cons f fs ih =>
    intro ms nm g n t fs0 bV bN bT sm
    rw [serializeFaces_cons, List.foldl_cons, List.foldl_cons]
    simp only [parseLine, modifyCurrent, OBJ_Mesh.AddFaceData, restoreIdx]
    rw [ih]
    simp [smoothAfter_cons]

theorem foldl_parse_mesh (m : OBJ_Mesh) (ms : List OBJ_Mesh) (cur : Option OBJ_Mesh)
    (pV pN pT : Nat) (sm : Int) (bV bN bT : Nat)
    (hV : pV + curVcount cur = bV) (hN : pN + curNcount cur = bN)
    (hT : pT + curTcount cur = bT) :
    List.foldl parseLine ⟨ms, cur, pV, pN, pT, sm⟩ (serializeMesh m bV bN bT) =
    ⟨ms ++ cur.toList, some (normMesh m), bV, bN, bT, smoothAfter m.m_faces sm⟩ := by
  have h1 : parseLine ⟨ms, cur, pV, pN, pT, sm⟩ (ObjLine.objName m.m_name) =
      ⟨ms ++ cur.toList, some (OBJ_Mesh.mkMesh m.m_name), bV, bN, bT, sm⟩ := by
    cases cur with
    | none =>
      simp only [curVcount, curNcount, curTcount, Nat.add_zero] at hV hN hT
      simp [parseLine, startMesh, hV, hN, hT]
    | some c =>
      simp only [curVcount, curNcount, curTcount] at hV hN hT
      simp [parseLine, startMesh, hV, hN, hT]
  rw [serializeMesh, List.foldl_cons, h1, List.foldl_append, List.foldl_append,
    List.foldl_append]
  rw [show OBJ_Mesh.mkMesh m.m_name = (⟨m.m_name, [], [], [], []⟩ : OBJ_Mesh) from rfl]
  rw [foldl_parse_vLines, foldl_parse_vnLines, foldl_parse_vtLines, foldl_parse_faceLines]
  simp [normMesh]

theorem foldl_parse_meshList (msl : List OBJ_Mesh) :
    ∀ (ms : List OBJ_Mesh) (cur : Option OBJ_Mesh) (pV pN pT : Nat) (sm : Int)
      (bV bN bT : Nat), pV + curVcount cur = bV → pN + curNcount cur = bN →
      pT + curTcount cur = bT →
      finishParse (List.foldl parseLine ⟨ms, cur, pV, pN, pT, sm⟩
        (serializeMeshList msl bV bN bT)) =
      (ms ++ cur.toList) ++ msl.map normMesh := by
  induction msl with
  | nil =>
    intro ms cur pV pN pT sm bV bN bT hV hN hT
    simp [serializeMeshList, finishParse]
  | cons m rest ih =>
    intro ms cur pV pN pT sm bV bN bT hV hN hT
    rw [serializeMeshList, List.foldl_append,
      foldl_parse_mesh m ms cur pV pN pT sm bV bN bT hV hN hT,
      ih (ms ++ cur.toList) (some (normMesh m)) bV bN bT (smoothAfter m.m_faces sm) _ _ _
        (by simp [curVcount, normMesh, flattenTriples_chunks3_length])
        (by simp [curNcount, normMesh, flattenTriples_chunks3_length])
        (by simp [curTcount, normMesh, flattenTriples_chunks3_length])]
    simp

theorem parseLines_serializeMeshList (msl : List OBJ_Mesh) :
    parseLines (serializeMeshList msl 0 0 0) = msl.map normMesh := by
  rw [parseLines, show initParseState = (⟨[], none, 0, 0, 0, -1⟩ : ParseState) from rfl,
    foldl_parse_meshList msl [] none 0 0 0 (-1) 0 0 0 rfl rfl rfl]
  simp

theorem map_normMesh_component {β : Type} (l : List OBJ_Mesh) (k : Nat)
    (proj : OBJ_Mesh → β) (hp : ∀ m, proj (normMesh m) = proj m) :
    (((l.map normMesh).get? k).map proj) = ((l.get? k).map proj) := by
  rw [List.get?_eq_getElem?, List.getElem?_map, List.get?_eq_getElem?]
  cases l[k]? with
  | none => rfl
  | some m => simp [hp m]

/-- C6: writing a collection and parsing the written stream into a fresh
collection succeeds and yields the same number of meshes, and for every
position the same vertex, normal and texcoord counts and the identical
face list (so in particular identical face index triples); values are
carried exactly since the textual stream is modelled structurally, which
is the modulo-formatting-precision reading of the claim. -/
theorem write_read_roundtrip (fl : OBJ_FileLoader) (k : Nat) :
    ∃ output, (fl.WriteFile true).2 = Except.ok output ∧
      ((OBJ_FileLoader.mk []).ReadFile output).2 = Except.ok () ∧
      ((OBJ_FileLoader.mk []).ReadFile output).1.GetNMeshes = fl.GetNMeshes ∧
      (((OBJ_FileLoader.mk []).ReadFile output).1.m_MeshList.get? k).map
          OBJ_Mesh.GetNVertices = (fl.m_MeshList.get? k).map OBJ_Mesh.GetNVertices ∧
      (((OBJ_FileLoader.mk []).ReadFile output).1.m_MeshList.get? k).map
          OBJ_Mesh.GetNNormals = (fl.m_MeshList.get? k).map OBJ_Mesh.GetNNormals ∧
      (((OBJ_FileLoader.mk []).ReadFile output).1.m_MeshList.get? k).map
          OBJ_Mesh.GetNTexture = (fl.m_MeshList.get? k).map OBJ_Mesh.GetNTexture ∧
      (((OBJ_FileLoader.mk []).ReadFile output).1.m_MeshList.get? k).map
          OBJ_Mesh.m_faces = (fl.m_MeshList.get? k).map OBJ_Mesh.m_faces := by
  have hparse : (OBJ_FileLoader.mk []).ReadFile (serializeMeshList fl.m_MeshList 0 0 0) =
      (OBJ_FileLoader.mk (fl.m_MeshList.map normMesh), Except.ok ()) := by
    rw [OBJ_FileLoader.ReadFile, if_pos rfl, parseLines_serializeMeshList]
  refine ⟨serializeMeshList fl.m_MeshList 0 0 0, by rw [OBJ_FileLoader.WriteFile]; simp,
    by rw [hparse], ?_, ?_, ?_, ?_, ?_⟩
  · rw [hparse]
    simp [OBJ_FileLoader.GetNMeshes]
  · rw [hparse]
    exact map_normMesh_component fl.m_MeshList k _ fun m => (normMesh_counts m).1
  · rw [hparse]
    exact map_normMesh_component fl.m_MeshList k _ fun m => (normMesh_counts m).2.1
  · rw [hparse]
    exact map_normMesh_component fl.m_MeshList k _ fun m => (normMesh_counts m).2.2.1
  · rw [hparse]
    exact map_normMesh_component fl.m_MeshList k _ fun m => (normMesh_counts m).2.2.2

end ObjLoader
